import Mathlib

/-!
# Verification of `os-find` (src/find.cpp)

A shallow embedding of the `find` command-line utility: a breadth-first
directory walker with a conjunction-of-predicates filter (`-inum`, `-nlinks`,
`-name`/`-path`, `-size`) and an optional `-exec` post-action.

Machine integers are modelled as `Nat`/`Int` with explicit wrap-around where
a C conversion can overflow (`long long` → `int`, `int` → `ino_t`/`nlink_t`).
The filesystem is a pure oracle (`FileSystem`): `opendir` returns the full
`readdir` stream (including the `.` and `..` entries, which the program skips
itself) or `none` when opening fails, and `lstat` returns the link-level
metadata or `none` when the stat call fails.

Error lines written to `stderr` are modelled by their context strings (the
part of `ERROR <context>: <system error text>` that the program controls;
the `strerror(errno)` suffix is environment-determined and omitted).
-/

namespace OsFind

/-- Conversion `long long` → `int` (two's-complement wrap to 32 bits), as
performed by the `return result;` of `parseNumber` storing `std::stoll`'s
value in an `int`. -/
def toInt32 (v : Int) : Int := (v + 2 ^ 31) % 2 ^ 32 - 2 ^ 31

/-- Conversion `int` → unsigned 64-bit (`ino_t`, `nlink_t`): reduction
modulo 2^64 of the two's-complement value. -/
def toUInt64Nat (v : Int) : Nat := (v % 2 ^ 64).toNat

/-- `enum sizeArea { EMPTY, LESS, GREATER, EQUAL }`. -/
inductive SizeArea where
  | EMPTY | LESS | GREATER | EQUAL
deriving DecidableEq, Repr

/-- `struct Request`.  The C members `inodeNumber`, `nlinkNumber` and `size`
are not initialised by the struct's definition; they default to `0` here,
which is sound because `checkStat` only reads them under the corresponding
`…Needed` flag and `parseArgs` overwrites them before any flag could be set. -/
structure Request where
  filePath : String := ""
  inumNeeded : Bool := false
  nameNeeded : Bool := false
  sizeNeeded : Bool := false
  nlinksNeeded : Bool := false
  execNeeded : Bool := false
  inodeNumber : Nat := 0
  name : String := ""
  executionPath : String := ""
  nlinkNumber : Nat := 0
  size : Int := 0
  neededSizeArea : SizeArea := .EMPTY
deriving DecidableEq, Repr

/-- The fields of `struct stat` that the program reads: `st_ino`, `st_nlink`,
`st_size`, and the `S_ISDIR` discriminator of `st_mode`. -/
structure Stat where
  st_ino : Nat := 0
  st_nlink : Nat := 0
  st_size : Int := 0
  isDir : Bool := false
deriving DecidableEq, Repr

/-- The zero-initialised `struct stat sb{}` of `bfs`. -/
def statZero : Stat := {}

/-- Errors on which the program calls `printErr` and `exit(EXIT_FAILURE)`
while parsing arguments. -/
inductive ArgError where
  | /-- `std::stoll` threw (`printErr(e.what())`). -/ badNumber
  | /-- `printErr("Invalid value for -size argument")`. -/ badSizePrefix
deriving DecidableEq, Repr

/-- The `stderr` context string produced for an `ArgError`; for `badNumber`
the C code prints `e.what()` of the `std::stoll` exception. -/
def ArgError.message : ArgError → String
  | .badNumber => "stoll"
  | .badSizePrefix => "Invalid value for -size argument"

/-- Whether `c` is one of the whitespace characters skipped by `strtoll`
(C `isspace` in the default locale). -/
def isSpaceC (c : Char) : Bool :=
  c = ' ' ∨ c = '\t' ∨ c = '\n' ∨ c = '\x0b' ∨ c = '\x0c' ∨ c = '\r'

/-- Value of a (non-empty) run of decimal digits. -/
def digitsVal (l : List Char) : Nat :=
  l.foldl (fun acc c => 10 * acc + (c.toNat - '0'.toNat)) 0

/-- `std::stoll(s)` (base 10): skip leading whitespace, optional sign, then a
non-empty run of decimal digits (trailing characters are ignored); `none` when
no conversion could be performed (`std::invalid_argument`) or the value does
not fit a `long long` (`std::out_of_range`). -/
def stoll (s : String) : Option Int :=
  let cs := s.data.dropWhile isSpaceC
  let signed : Int × List Char :=
    match cs with
    | '-' :: t => (-1, t)
    | '+' :: t => (1, t)
    | _ => (1, cs)
  let digits := signed.2.takeWhile Char.isDigit
  if digits = [] then none
  else
    let v : Int := signed.1 * (digitsVal digits : Int)
    if v < -(2 ^ 63) ∨ 2 ^ 63 - 1 < v then none else some v

/-- `int parseNumber(const std::string&)`: `std::stoll` stored into an `int`
(silent 32-bit truncation); an exception is `printErr` + `exit(EXIT_FAILURE)`,
modelled as `.error .badNumber`. -/
def parseNumber (number : String) : Except ArgError Int :=
  match stoll number with
  | none => .error .badNumber
  | some v => .ok (toInt32 v)

/-- `void correctPath(std::string&)`: append `/` unless the path already ends
with it.  (`path.back()` on an empty string is UB in C++; every path reaching
this helper in the program is non-empty.) -/
def correctPath (path : String) : String :=
  if path.back ≠ '/' then path ++ "/" else path

/-- The flag/value pairs `(argv[i], argv[i+1])` for `i = 2, 4, …` read by the
loop of `parseArgs` (the caller guarantees an even remainder). -/
def toPairs : List String → List (String × String)
  | a :: b :: rest => (a, b) :: toPairs rest
  | _ => []

/-- `value[0]` on a `std::string`: the first character, or the null character
when the string is empty (reading `operator[](size())` is defined and yields
the null character). -/
def firstChar (value : String) : Char :=
  value.data.head?.getD (Char.ofNat 0)

/-- The body of `parseArgs`' loop over flag/value pairs, threading the
`Request` being filled in.  Faithful to the source, including the bug that
`-inum`, `-nlinks` and `-size` store their values but never set the
corresponding `…Needed` flag. -/
def parseArgsLoop (request : Request) : List (String × String) → Except ArgError Request
  | [] => .ok request
  | (argument, value) :: rest =>
    if argument = "-inum" ∨ argument = "-nlinks" then
      match parseNumber value with
      | .error e => .error e
      | .ok numericValue =>
        if argument = "-inum" then
          parseArgsLoop { request with inodeNumber := toUInt64Nat numericValue } rest
        else
          parseArgsLoop { request with nlinkNumber := toUInt64Nat numericValue } rest
    else if argument = "-name" then
      parseArgsLoop { request with nameNeeded := true, name := value } rest
    else if argument = "-path" then
      parseArgsLoop { request with nameNeeded := true, name := value } rest
    else if argument = "-size" then
      let area : Option SizeArea :=
        if firstChar value = '-' then some .LESS
        else if firstChar value = '=' then some .EQUAL
        else if firstChar value = '+' then some .GREATER
        else none
      match area with
      | none => .error .badSizePrefix
      | some a =>
        match parseNumber (value.drop 1) with
        | .error e => .error e
        | .ok n => parseArgsLoop { request with neededSizeArea := a, size := n } rest
    else if argument = "-exec" then
      parseArgsLoop { request with execNeeded := true, executionPath := value } rest
    else
      parseArgsLoop request rest

/-- `void parseArgs(Request&, int, char**)`: process the flag/value pairs,
then set `request.filePath = argv[1]` (the loop never reads `filePath`, so
setting it afterwards is as in the source). -/
def parseArgs (argv : List String) : Except ArgError Request :=
  match parseArgsLoop {} (toPairs (argv.drop 2)) with
  | .error e => .error e
  | .ok r => .ok { r with filePath := (argv.get? 1).getD "" }

/-- The `request.sizeNeeded` sub-check of `checkStat`: `true` iff the chain of
`if` statements on `neededSizeArea` would `return false`. -/
def sizeViolated (request : Request) (s : Stat) : Bool :=
  match request.neededSizeArea with
  | .LESS => request.size ≤ s.st_size
  | .EQUAL => s.st_size ≠ request.size
  | .GREATER => s.st_size ≤ request.size
  | .EMPTY => false

/-- `bool checkStat(const Request&, const struct stat&, const std::string&)`:
the conjunction-of-predicates filter, each test guarded by its `…Needed`
flag. -/
def checkStat (request : Request) (s : Stat) (name : String) : Bool :=
  if request.inumNeeded ∧ s.st_ino ≠ request.inodeNumber then false
  else if request.nlinksNeeded ∧ s.st_nlink ≠ request.nlinkNumber then false
  else if request.nameNeeded ∧ name ≠ request.name then false
  else if request.sizeNeeded ∧ sizeViolated request s then false
  else true

/-- The filesystem oracle.  `opendir p` is the full `readdir` stream of the
directory at `p` (including `.` and `..` when the tree provides them), or
`none` when `opendir` fails; `lstat p` is the link-level metadata of the
entry at `p`, or `none` when `lstat` fails. -/
structure FileSystem where
  opendir : String → Option (List String)
  lstat : String → Option Stat

/-- `struct BfsNode`: the `DIR*` handle (`none` models a null pointer, `some
entries` a successfully opened stream) plus the path used to open it. -/
structure BfsNode where
  dir : Option (List String)
  path : String

/-- Everything observable that `bfs` produces: the `result` vector of matched
paths, the `stderr` context strings, and — to reason about handle lifecycles —
the paths whose `opendir` succeeded and the paths passed to `closedir` with a
non-null handle. -/
structure WalkOutput where
  result : List String := []
  errors : List String := []
  opened : List String := []
  closed : List String := []
deriving DecidableEq, Repr

/-- The contribution of one `readdir` entry inside `bfs`' inner loop:
matches appended, errors printed, subdirectory handles successfully opened,
and paths pushed onto the queue (the source pushes a frame only when
`opendir` returned null, so every pushed frame carries a null handle). -/
structure EntryEffect where
  result : List String := []
  errors : List String := []
  opened : List String := []
  pushed : List String := []
deriving DecidableEq, Repr

/-- One iteration of `while (dirent* file = readdir(current.dir))`, for the
entry named `fileName` of the directory at `dirPath`.  Faithful to the
source: the `lstat(...) != 1` comparison (true for both return values 0 and
-1, so the error branch is dead and a failed stat leaves `sb`
zero-initialised), and the inverted `if (!nextDirectory) q.push(...)` (a
successful subdirectory open is neither pushed nor closed). -/
def processEntry (fs : FileSystem) (request : Request) (dirPath fileName : String) :
    EntryEffect :=
  let filePath := correctPath dirPath
  if fileName = "." ∨ fileName = ".." then {}
  else
    let fullPath := filePath ++ fileName
    let lstatResult := fs.lstat fullPath
    let sb := lstatResult.getD statZero
    let lstatReturn : Int := if lstatResult.isSome then 0 else -1
    if lstatReturn ≠ 1 then
      if sb.isDir then
        match fs.opendir fullPath with
        | some _ => { opened := [fullPath] }
        | none => { pushed := [fullPath] }
      else if checkStat request sb fileName then { result := [fullPath] }
      else {}
    else
      { errors := ["Unable to access file"] }

/-- The inner loop of `bfs` over all entries of the frame at `dirPath`. -/
def processEntries (fs : FileSystem) (request : Request) (dirPath : String) :
    List String → EntryEffect
  | [] => {}
  | e :: rest =>
    let fst := processEntry fs request dirPath e
    let snd := processEntries fs request dirPath rest
    { result := fst.result ++ snd.result, errors := fst.errors ++ snd.errors,
      opened := fst.opened ++ snd.opened, pushed := fst.pushed ++ snd.pushed }

/-- The outer `while (!q.empty())` loop of `bfs`.  `readdir` and `closedir`
on a null `DIR*` are undefined behaviour in C; the model lets a null frame
contribute nothing and records no close for it. -/
def runQueue (fs : FileSystem) (request : Request) : List BfsNode → WalkOutput
  | [] => {}
  | node :: rest =>
    match h : node.dir with
    | none => runQueue fs request rest
    | some entries =>
      let eff := processEntries fs request node.path entries
      let tail := runQueue fs request (rest ++ eff.pushed.map fun p => ⟨none, p⟩)
      { result := eff.result ++ tail.result,
        errors := eff.errors ++ tail.errors,
        opened := eff.opened ++ tail.opened,
        closed := node.path :: tail.closed }
termination_by q => ((q.countP fun n => n.dir.isSome), q.length)
decreasing_by
  · have hc : List.countP (fun n => n.dir.isSome) (node :: rest)
        = List.countP (fun n => n.dir.isSome) rest := by
      simp [List.countP_cons, h]
    rw [hc]
    apply Prod.Lex.right
    simp
  · apply Prod.Lex.left
    simp [List.countP_cons, List.countP_append, List.countP_map, h,
      Function.comp_def]

/-- `std::vector<std::string> bfs(const Request&)`: open the root (on
failure report and return empty), seed the queue with the root frame, and
drain the queue.  The successful root open is recorded in `opened`. -/
def bfs (fs : FileSystem) (request : Request) : WalkOutput :=
  match fs.opendir request.filePath with
  | some rootEntries =>
    let w := runQueue fs request [⟨some rootEntries, request.filePath⟩]
    { w with opened := request.filePath :: w.opened }
  | none => { errors := ["Unable to access root directory"] }

/-- The observable behaviour of one program run: whether the process exited
with `EXIT_FAILURE`, the lines written to standard output, the `stderr`
context strings, and the number of child processes forked. -/
structure ProgOutput where
  exitFailure : Bool
  stdout : List String := []
  stderr : List String := []
  children : Nat := 0
deriving DecidableEq, Repr

/-- `int main(int, char**)`: validate the argument count, parse the
arguments (fatal on `ArgError`), run `bfs`, then either fork once for
`-exec` (the fork is assumed to succeed; the child's exit code in the
summary line is environment-determined and omitted) or print each match. -/
def progMain (fs : FileSystem) (argv : List String) : ProgOutput :=
  if argv.length < 2 ∨ (argv.length - 2) % 2 = 1 then
    { exitFailure := true, stderr := ["Invalid number of arguments"] }
  else
    match parseArgs argv with
    | .error e => { exitFailure := true, stderr := [e.message] }
    | .ok request =>
      let w := bfs fs request
      if request.execNeeded then
        { exitFailure := false, stdout := ["Process finished with exit code"],
          stderr := w.errors, children := 1 }
      else
        { exitFailure := false, stdout := w.result, stderr := w.errors }

/-- The argument-count validation at the top of `main`. -/
def argvCountOk (argv : List String) : Prop :=
  ¬(argv.length < 2 ∨ (argv.length - 2) % 2 = 1)

/-- `q` is `p` with exactly one additional predicate field enabled (the
corresponding `…Needed` flag turned on, together with the value that comes
with it); all other fields unchanged. -/
def enablesOneMore (p q : Request) : Prop :=
  (∃ v, p.inumNeeded = false ∧ q = { p with inumNeeded := true, inodeNumber := v }) ∨
  (∃ v, p.nlinksNeeded = false ∧ q = { p with nlinksNeeded := true, nlinkNumber := v }) ∨
  (∃ v, p.nameNeeded = false ∧ q = { p with nameNeeded := true, name := v }) ∨
  (∃ a v, p.sizeNeeded = false ∧
    q = { p with sizeNeeded := true, neededSizeArea := a, size := v })

/-! ## Concrete test trees

`fsTree` is the spec's §8 shape: root `/r` containing a file `a` and a
subdirectory `d` that itself contains a file `c`; both directories open
successfully and every `lstat` succeeds.  `fsStatFail` has a root with a
single entry `x` whose `lstat` fails.  `fsClosed` is a filesystem where
every `opendir` and `lstat` fails (a non-existent root). -/

def fsTree : FileSystem :=
  { opendir := fun p =>
      if p = "/r" then some [".", "..", "d", "a"]
      else if p = "/r/d" then some [".", "..", "c"]
      else none,
    lstat := fun p =>
      if p = "/r/a" then some { st_ino := 7, st_nlink := 1, st_size := 10 }
      else if p = "/r/d" then
        some { st_ino := 8, st_nlink := 2, st_size := 4096, isDir := true }
      else if p = "/r/d/c" then some { st_ino := 9, st_nlink := 1, st_size := 5 }
      else none }

def fsStatFail : FileSystem :=
  { opendir := fun p => if p = "/r" then some ["x"] else none,
    lstat := fun _ => none }

def fsClosed : FileSystem :=
  { opendir := fun _ => none, lstat := fun _ => none }

/-! ## Helper lemmas -/

/-- A queue consisting solely of null-handle frames produces nothing. -/
theorem runQueue_nullFrames (fs : FileSystem) (request : Request) (l : List String) :
    runQueue fs request (l.map fun p => ⟨none, p⟩) = {} := by
  induction l with
  | nil => simp [runQueue]
  | cons a t ih => simpa [runQueue] using ih

/-- Closed form of `bfs` when the root opens: the root frame is processed
and closed, and the null frames pushed along the way contribute nothing. -/
theorem bfs_open (fs : FileSystem) (request : Request) (es : List String)
    (h : fs.opendir request.filePath = some es) :
    bfs fs request =
      { result := (processEntries fs request request.filePath es).result,
        errors := (processEntries fs request request.filePath es).errors,
        opened := request.filePath :: (processEntries fs request request.filePath es).opened,
        closed := [request.filePath] } := by
  simp only [bfs, h]
  rw [show ([⟨some es, request.filePath⟩] : List BfsNode)
      = ⟨some es, request.filePath⟩ :: [] from rfl]
  simp [runQueue, runQueue_nullFrames]

/-- Closed form of `bfs` when the root cannot be opened. -/
theorem bfs_fail (fs : FileSystem) (request : Request)
    (h : fs.opendir request.filePath = none) :
    bfs fs request = { errors := ["Unable to access root directory"] } := by
  simp [bfs, h]

/-- `checkStat` as a conjunction of guarded tests. -/
theorem checkStat_iff (r : Request) (s : Stat) (n : String) :
    checkStat r s n = true ↔
      ((r.inumNeeded = true → s.st_ino = r.inodeNumber) ∧
       (r.nlinksNeeded = true → s.st_nlink = r.nlinkNumber) ∧
       (r.nameNeeded = true → n = r.name) ∧
       (r.sizeNeeded = true → sizeViolated r s = false)) := by
  unfold checkStat
  split_ifs with h1 h2 h3 h4 <;> simp_all

/-- Enabling one more predicate field can only reject more entries. -/
theorem checkStat_mono (p q : Request) (h : enablesOneMore p q)
    (s : Stat) (n : String) (hq : checkStat q s n = true) :
    checkStat p s n = true := by
  rw [checkStat_iff] at hq ⊢
  rcases h with ⟨v, hflag, rfl⟩ | ⟨v, hflag, rfl⟩ | ⟨v, hflag, rfl⟩ | ⟨a, v, hflag, rfl⟩
  · exact ⟨fun hx => absurd hx (by simp [hflag]), hq.2.1, hq.2.2.1, hq.2.2.2⟩
  · exact ⟨hq.1, fun hx => absurd hx (by simp [hflag]), hq.2.2.1, hq.2.2.2⟩
  · exact ⟨hq.1, hq.2.1, fun hx => absurd hx (by simp [hflag]), hq.2.2.2⟩
  · exact ⟨hq.1, hq.2.1, hq.2.2.1, fun hx => absurd hx (by simp [hflag])⟩

/-- The matches contributed by a single entry shrink (or stay) when the
predicate is strengthened; everything else about the entry's processing is
independent of the predicate. -/
theorem processEntry_result_mono (fs : FileSystem) (p q : Request)
    (hmono : ∀ s n, checkStat q s n = true → checkStat p s n = true)
    (dirPath fileName : String) (x : String)
    (hx : x ∈ (processEntry fs q dirPath fileName).result) :
    x ∈ (processEntry fs p dirPath fileName).result := by
  simp only [processEntry] at hx ⊢
  split_ifs at hx ⊢ <;>
    first
      | exact hx
      | exact absurd (hmono _ _ (by assumption)) (by assumption)
      | simp at hx

/-- Lifting `processEntry_result_mono` over a whole entry list. -/
theorem processEntries_result_mono (fs : FileSystem) (p q : Request)
    (hmono : ∀ s n, checkStat q s n = true → checkStat p s n = true)
    (dirPath : String) (entries : List String) (x : String)
    (hx : x ∈ (processEntries fs q dirPath entries).result) :
    x ∈ (processEntries fs p dirPath entries).result := by
  induction entries with
  | nil => simp [processEntries] at hx
  | cons e rest ih =>
    simp only [processEntries, List.mem_append] at hx ⊢
    rcases hx with hx | hx
    · exact Or.inl (processEntry_result_mono fs p q hmono dirPath e x hx)
    · exact Or.inr (ih hx)

/-! ## Claims -/

/-- C9: for every Predicate `p` and every Predicate `q` obtained from `p` by
enabling one additional field, and for every tree, the result set produced
under `q` is a subset of the result set produced under `p` (conjunction
law). -/
theorem c9_conjunction_shrinks (fs : FileSystem) (p q : Request)
    (h : enablesOneMore p q) :
    ∀ x, x ∈ (bfs fs q).result → x ∈ (bfs fs p).result := by
  have hpath : q.filePath = p.filePath := by
    rcases h with ⟨v, _, rfl⟩ | ⟨v, _, rfl⟩ | ⟨v, _, rfl⟩ | ⟨a, v, _, rfl⟩ <;> rfl
  have hmono : ∀ s n, checkStat q s n = true → checkStat p s n = true :=
    fun s n => checkStat_mono p q h s n
  intro x hx
  cases hfs : fs.opendir p.filePath with
  | none =>
    rw [bfs_fail fs q (by rw [hpath]; exact hfs)] at hx
    simp at hx
  | some es =>
    rw [bfs_open fs q es (by rw [hpath]; exact hfs)] at hx
    rw [bfs_open fs p es hfs]
    rw [hpath] at hx
    exact processEntries_result_mono fs p q hmono p.filePath es x hx

/-- Witness for C9: enabling `-name a` on the empty predicate over the test
tree. -/
theorem c9_witness :
    enablesOneMore { filePath := "/r" }
        { filePath := "/r", nameNeeded := true, name := "a" }
      ∧ ∀ x,
          x ∈ (bfs fsTree { filePath := "/r", nameNeeded := true, name := "a" }).result
          → x ∈ (bfs fsTree { filePath := "/r" }).result := by
  have h : enablesOneMore { filePath := "/r" }
      { filePath := "/r", nameNeeded := true, name := "a" } :=
    Or.inr (Or.inr (Or.inl ⟨"a", rfl, rfl⟩))
  exact ⟨h, c9_conjunction_shrinks fsTree _ _ h⟩

/-- C1 (code bug): on the command line `find /r -inum 5` the file `/r/a`,
whose inode number is 7 ≠ 5, is still emitted: `parseArgs` stores the
`-inum` value but never sets `inumNeeded`, so the inode predicate never
filters anything. -/
theorem c1_inum_not_filtered :
    fsTree.lstat "/r/a" = some { st_ino := 7, st_nlink := 1, st_size := 10 }
      ∧ parseArgs ["find", "/r", "-inum", "5"]
          = Except.ok { filePath := "/r", inodeNumber := 5 }
      ∧ (progMain fsTree ["find", "/r", "-inum", "5"]).stdout = ["/r/a"] := by
  refine ⟨rfl, rfl, ?_⟩
  show (bfs fsTree { filePath := "/r", inodeNumber := 5 }).result = ["/r/a"]
  rw [bfs_open fsTree { filePath := "/r", inodeNumber := 5 } [".", "..", "d", "a"] rfl]
  rfl

/-- C2 (code bug): on the command line `find /r -size =5` the file `/r/a`,
whose size is 10 ≠ 5, is still emitted: `parseArgs` stores the relation and
threshold but never sets `sizeNeeded`, so the size predicate never filters
anything. -/
theorem c2_size_not_filtered :
    fsTree.lstat "/r/a" = some { st_ino := 7, st_nlink := 1, st_size := 10 }
      ∧ parseArgs ["find", "/r", "-size", "=5"]
          = Except.ok { filePath := "/r", size := 5, neededSizeArea := .EQUAL }
      ∧ (progMain fsTree ["find", "/r", "-size", "=5"]).stdout = ["/r/a"] := by
  refine ⟨rfl, rfl, ?_⟩
  show (bfs fsTree { filePath := "/r", size := 5, neededSizeArea := .EQUAL }).result
      = ["/r/a"]
  rw [bfs_open fsTree { filePath := "/r", size := 5, neededSizeArea := .EQUAL }
    [".", "..", "d", "a"] rfl]
  rfl

/-- C3 (code bug): the inverted `if (!nextDirectory) q.push(...)` never
enqueues a successfully opened subdirectory: on the test tree the walk with
the empty predicate emits only the root's file `a` and never reaches `d`'s
entry `c`, although `d` opens successfully and contains `c`. -/
theorem c3_subdir_not_descended :
    fsTree.opendir "/r/d" = some [".", "..", "c"]
      ∧ fsTree.lstat "/r/d/c" = some { st_ino := 9, st_nlink := 1, st_size := 5 }
      ∧ (bfs fsTree { filePath := "/r" }).result = ["/r/a"] := by
  refine ⟨rfl, rfl, ?_⟩
  rw [bfs_open fsTree { filePath := "/r" } [".", "..", "d", "a"] rfl]
  rfl

/-- C4 (code bug): the walk successfully opens the subdirectory `/r/d` but
never closes it (the handle is neither enqueued nor closed, it leaks); only
the root handle is closed. -/
theorem c4_subdir_handle_leaked :
    (bfs fsTree { filePath := "/r" }).opened = ["/r", "/r/d"]
      ∧ (bfs fsTree { filePath := "/r" }).closed = ["/r"] := by
  rw [bfs_open fsTree { filePath := "/r" } [".", "..", "d", "a"] rfl]
  exact ⟨rfl, rfl⟩

/-- C5 (code bug): `lstat` of `/r/x` fails, yet no error is reported and the
entry is processed against the zero-initialised `struct stat` and emitted —
the `lstat(...) != 1` comparison holds for both return values, so the error
branch is dead. -/
theorem c5_lstat_failure_silently_processed :
    fsStatFail.lstat "/r/x" = none
      ∧ bfs fsStatFail { filePath := "/r" }
          = { result := ["/r/x"], errors := [], opened := ["/r"], closed := ["/r"] } := by
  refine ⟨rfl, ?_⟩
  rw [bfs_open fsStatFail { filePath := "/r" } ["x"] rfl]
  rfl

/-- C6 counterexample: with `-exec /bin/true` supplied and a root that cannot
be opened, the program still forks exactly one child, contradicting the claim
that no child is spawned when the walk fails to open the root. -/
theorem c6_counterexample :
    fsClosed.opendir "/nope" = none
      ∧ (progMain fsClosed ["find", "/nope", "-exec", "/bin/true"]).children = 1 :=
  ⟨rfl, rfl⟩

/-- C6 (amended): exactly one child process is forked iff the command line
passes the argument-count check, parses successfully, and `-exec` was
supplied — independently of whether the root directory could be opened. -/
theorem c6_child_iff_exec (fs : FileSystem) (argv : List String) :
    (progMain fs argv).children = 1
      ↔ argvCountOk argv
        ∧ ∃ r, parseArgs argv = Except.ok r ∧ r.execNeeded = true := by
  unfold progMain argvCountOk
  split_ifs with hbad
  · simp [hbad]
  · cases hp : parseArgs argv with
    | error e => simp [hp, hbad]
    | ok r =>
      cases hr : r.execNeeded with
      | true => simp [hp, hbad, hr]
      | false => simp [hp, hbad, hr]

/-- If some flag/value pair of the list is `-size` with a value whose first
character is none of `-`, `=`, `+`, the parse loop never succeeds: it either
fails on an earlier pair or reaches this pair and rejects the prefix. -/
theorem parseArgsLoop_sizeBad (v : String)
    (h1 : firstChar v ≠ '-') (h2 : firstChar v ≠ '=') (h3 : firstChar v ≠ '+') :
    ∀ (l : List (String × String)) (req r : Request),
      ("-size", v) ∈ l → parseArgsLoop req l ≠ Except.ok r := by
  intro l
  induction l with
  | nil =>
    intro req r h
    simp at h
  | cons hd tl ih =>
    intro req r hmem hok
    obtain ⟨a, b⟩ := hd
    rcases List.mem_cons.mp hmem with heq | hmem2
    · have ha : a = "-size" := (congrArg Prod.fst heq).symm
      have hb : b = v := (congrArg Prod.snd heq).symm
      subst ha; subst hb
      simp [parseArgsLoop, h1, h2, h3] at hok
    · simp only [parseArgsLoop] at hok
      split_ifs at hok <;>
        first
          | exact ih _ _ hmem2 hok
          | (repeat' split at hok) <;>
              first
                | exact ih _ _ hmem2 hok
                | cases hok

/-- C7: every command line carrying a `-size` flag whose value begins with a
character other than `-`, `=`, `+` makes the program report an argument
error to stderr and exit with a failure status, printing no matched paths
and forking no child. -/
theorem c7_bad_size_prefix_fatal (fs : FileSystem) (argv : List String) (v : String)
    (hmem : ("-size", v) ∈ toPairs (argv.drop 2))
    (h1 : firstChar v ≠ '-') (h2 : firstChar v ≠ '=') (h3 : firstChar v ≠ '+') :
    (progMain fs argv).exitFailure = true
      ∧ (progMain fs argv).stdout = []
      ∧ (progMain fs argv).children = 0
      ∧ (progMain fs argv).stderr ≠ [] := by
  unfold progMain
  split_ifs with hbad
  · exact ⟨rfl, rfl, rfl, by simp⟩
  · cases hp : parseArgs argv with
    | error e =>
      exact ⟨rfl, rfl, rfl, by simp⟩
    | ok r =>
      exfalso
      unfold parseArgs at hp
      cases hq : parseArgsLoop {} (toPairs (argv.drop 2)) with
      | error e => rw [hq] at hp; cases hp
      | ok r0 => exact parseArgsLoop_sizeBad v h1 h2 h3 _ {} r0 hmem hq

/-- Witness for C7: the spec's own scenario `find /tmp/t -size *5`. -/
theorem c7_witness :
    (("-size", "*5") ∈ toPairs ((["find", "/tmp/t", "-size", "*5"] : List String).drop 2)
        ∧ firstChar "*5" ≠ '-' ∧ firstChar "*5" ≠ '=' ∧ firstChar "*5" ≠ '+')
      ∧ ((progMain fsClosed ["find", "/tmp/t", "-size", "*5"]).exitFailure = true
        ∧ (progMain fsClosed ["find", "/tmp/t", "-size", "*5"]).stdout = []
        ∧ (progMain fsClosed ["find", "/tmp/t", "-size", "*5"]).children = 0
        ∧ (progMain fsClosed ["find", "/tmp/t", "-size", "*5"]).stderr ≠ []) :=
  ⟨⟨by decide, by decide, by decide, by decide⟩,
    c7_bad_size_prefix_fatal fsClosed ["find", "/tmp/t", "-size", "*5"] "*5"
      (by decide) (by decide) (by decide) (by decide)⟩

/-- C8: when the root cannot be opened and no `-exec` was given, the failure
is reported to stderr, the match output is empty, and the process exits
successfully (code 0). -/
theorem c8_root_failure_nonfatal (fs : FileSystem) (argv : List String) (r : Request)
    (hok : argvCountOk argv) (hparse : parseArgs argv = Except.ok r)
    (hexec : r.execNeeded = false) (hroot : fs.opendir r.filePath = none) :
    progMain fs argv
      = { exitFailure := false, stdout := [],
          stderr := ["Unable to access root directory"], children := 0 } := by
  unfold progMain
  rw [if_neg hok, hparse]
  simp [hexec, bfs_fail fs r hroot]

/-- Witness for C8: `find /nope` on a filesystem where every open fails. -/
theorem c8_witness :
    (argvCountOk ["find", "/nope"]
        ∧ parseArgs ["find", "/nope"] = Except.ok { filePath := "/nope" }
        ∧ ({ filePath := "/nope" } : Request).execNeeded = false
        ∧ fsClosed.opendir "/nope" = none)
      ∧ progMain fsClosed ["find", "/nope"]
          = { exitFailure := false, stdout := [],
              stderr := ["Unable to access root directory"], children := 0 } :=
  ⟨⟨by unfold argvCountOk; decide, rfl, rfl, rfl⟩,
    c8_root_failure_nonfatal fsClosed ["find", "/nope"] { filePath := "/nope" }
      (by unfold argvCountOk; decide) rfl rfl rfl⟩

/-- C10: numeric flag values are parsed with 64-bit `stoll` but returned
through `int`: `4294967296` (= 2^32, inside the `long long` range but outside
the `int` range) parses successfully and is silently truncated to `0` rather
than rejected, and the negative value `-5` is accepted without error despite
the non-negativity requirement. -/
theorem c10_parseNumber_truncation :
    stoll "4294967296" = some 4294967296
      ∧ parseNumber "4294967296" = Except.ok 0
      ∧ parseNumber "-5" = Except.ok (-5)
      ∧ ∃ r, parseArgs ["find", "/r", "-inum", "4294967296"] = Except.ok r
          ∧ r.inodeNumber = 0 :=
  ⟨by decide, rfl, rfl, { filePath := "/r" }, rfl, rfl⟩

end OsFind
